import Mathlib

/-!
Verification of the weighting-potential reader module
(src/modules/WeightingPotentialReader/WeightingPotentialReaderModule.cpp).

The development is a shallow embedding of the module:

* the analytic pad weighting potential (`get_pad_potential_function` and its
  inner lambda `f`) is embedded over `ℝ`, with C `double` arithmetic read as
  real arithmetic, `std::atan` as `Real.arctan`, `std::sqrt` as `Real.sqrt`
  and `M_PI` as `Real.pi`;
* the initialization path (`init`, `read_init_field`,
  `check_detector_match`) is embedded over `ℚ` so that concrete runs are
  computable; `std::fmod` and `std::fabs` are given exact rational
  counterparts and `std::numeric_limits<double>::epsilon()` becomes the
  exact rational `2⁻⁵²`;
* the `FieldParser` class itself is not part of the shown sources (only its
  caller is), so parsing and the per-file-name cache are modelled from the
  specification text and marked as such.
-/

namespace WeightingPotentialReader

/-- `ROOT::Math::XYVector`, as used for the pixel implant size. -/
structure XYVector where
  x : ℝ
  y : ℝ

/-- `ROOT::Math::XYZPoint`, the query position handed to the field function. -/
structure XYZPoint where
  x : ℝ
  y : ℝ
  z : ℝ

/-- The innermost lambda `arctan` of `get_pad_potential_function`:
`std::atan(a * b / c / std::sqrt(a * a + b * b + c * c))`. -/
noncomputable def arctanTerm (a b c : ℝ) : ℝ :=
  Real.arctan (a * b / c / Real.sqrt (a * a + b * b + c * c))

/-- The lambda `f` of `get_pad_potential_function`: shift `x` and `y` by plus
and minus half the implant size and combine the four arctan fractions as
`arctan(x1,y1,u) + arctan(x2,y2,u) - arctan(x1,y2,u) - arctan(x2,y1,u)`. -/
noncomputable def f (implant : XYVector) (x y u : ℝ) : ℝ :=
  let x1 := x - implant.x / 2
  let x2 := x + implant.x / 2
  let y1 := y - implant.y / 2
  let y2 := y + implant.y / 2
  arctanTerm x1 y1 u + arctanTerm x2 y2 u - arctanTerm x1 y2 u - arctanTerm x2 y1 u

/-- The series-accumulation loop of `get_pad_potential_function`:
`for(int n = 1; n <= 100; n++) sum += f(x, y, 2*n*d - local_z) - f(x, y, 2*n*d + local_z);`
rendered as a recursion on the number of completed iterations. -/
noncomputable def seriesLoop (implant : XYVector) (x y d local_z : ℝ) : ℕ → ℝ
  | 0 => 0
  | n + 1 =>
    seriesLoop implant x y d local_z n +
      (f implant x y (2 * ((n : ℝ) + 1) * d - local_z) -
        f implant x y (2 * ((n : ℝ) + 1) * d + local_z))

/-- `WeightingPotentialReaderModule::get_pad_potential_function`: the returned
lookup lambda, capturing `implant` and `thickness_domain` by value. -/
noncomputable def get_pad_potential_function (implant : XYVector)
    (thickness_domain : ℝ × ℝ) : XYZPoint → ℝ :=
  fun pos =>
    let d := thickness_domain.2 - thickness_domain.1
    let local_z := -pos.z + thickness_domain.2
    let sum := seriesLoop implant pos.x pos.y d local_z 100
    1 / (2 * Real.pi) * (f implant pos.x pos.y local_z - sum)

/-- The elementary function as the specification words it: a sum over the four
pad corners, each corner contributing its sign times
`atan(Δx·Δy / (u·sqrt(Δx² + Δy² + u²)))`, with the offset Δx ranging over
`x − implant.x/2` and `x + implant.x/2`, the offset Δy ranging over
`y − implant.y/2` and `y + implant.y/2`, and signs `(+, +, −, −)`. -/
noncomputable def fSpecCorners (implant : XYVector) (x y u : ℝ) : ℝ :=
  (([((1 : ℝ), x - implant.x / 2, y - implant.y / 2),
     ((1 : ℝ), x + implant.x / 2, y + implant.y / 2),
     ((-1 : ℝ), x - implant.x / 2, y + implant.y / 2),
     ((-1 : ℝ), x + implant.x / 2, y - implant.y / 2)]).map
    (fun t => t.1 * Real.arctan (t.2.1 * t.2.2 /
      (u * Real.sqrt (t.2.1 ^ 2 + t.2.2 ^ 2 + u ^ 2))))).sum

/-- Closure state of the lambda returned by `get_pad_potential_function`: it
captures exactly the implant size and the thickness domain, by value. -/
structure PadClosure where
  implant : XYVector
  thickness_domain : ℝ × ℝ

/-- Forming the closure at the moment `get_pad_potential_function` returns. -/
def capturePad (implant : XYVector) (thickness_domain : ℝ × ℝ) : PadClosure :=
  ⟨implant, thickness_domain⟩

/-- Repeated invocation of the captured closure on a list of query positions,
threading the closure state through every call exactly as a caller holding the
`FieldFunction` would. -/
noncomputable def invokePad : PadClosure → List XYZPoint → List ℝ × PadClosure
  | c, [] => ([], c)
  | c, p :: ps =>
    let v := get_pad_potential_function c.implant c.thickness_domain p
    let r := invokePad c ps
    (v :: r.1, r.2)

/-- `std::numeric_limits<double>::epsilon()`, the exact value `2⁻⁵²`. -/
def epsilon_double : ℚ := 1 / 2 ^ 52

/-- C truncation toward zero of a rational, as used by `std::fmod`. -/
def qtrunc (x : ℚ) : ℤ := x.num / (x.den : ℤ)

/-- `std::fmod(x, y) = x - trunc(x / y) * y`, in exact rational arithmetic. -/
def qfmod (x y : ℚ) : ℚ := x - y * (qtrunc (x / y) : ℚ)

/-- The slice of `DetectorModel` that `WeightingPotentialReaderModule` reads:
sensor center and size along `z`, pixel pitch and implant size in `x`/`y`. -/
structure DetectorModel where
  sensorCenter_z : ℚ
  sensorSize_z : ℚ
  pixelSize_x : ℚ
  pixelSize_y : ℚ
  implantSize_x : ℚ
  implantSize_y : ℚ
deriving DecidableEq

/-- The two `LOG(WARNING)` records `check_detector_match` can emit. -/
inductive Warning where
  | thicknessMismatch
  | pitchMismatch
deriving DecidableEq

/-- `WeightingPotentialReaderModule::check_detector_match`: compares the field
header dimensions `(xpixsz, ypixsz, thickness)` against the detector model and
the requested thickness domain, emitting warnings only; it has no failure
path. -/
def check_detector_match (dimensions : ℚ × ℚ × ℚ) (thickness_domain : ℚ × ℚ)
    (model : DetectorModel) : List Warning :=
  let xpixsz := dimensions.1
  let ypixsz := dimensions.2.1
  let thickness := dimensions.2.2
  let eff_thickness := thickness_domain.2 - thickness_domain.1
  (if epsilon_double < |thickness - eff_thickness| then [Warning.thicknessMismatch] else []) ++
    (if epsilon_double < qfmod xpixsz model.pixelSize_x ∨
        epsilon_double < qfmod ypixsz model.pixelSize_y
      then [Warning.pitchMismatch] else [])

/-- Content of a field file in the init format: header dimensions, physical
extents, and the flat sample buffer. -/
structure InitFile where
  nx : ℕ
  ny : ℕ
  nz : ℕ
  size_x : ℚ
  size_y : ℚ
  thickness : ℚ
  samples : List ℚ
deriving DecidableEq

/-- `FieldData<double>`: sample buffer, grid dimensions and physical extents,
as returned by the field parser. -/
structure FieldData where
  samples : List ℚ
  dims : ℕ × ℕ × ℕ
  extents : ℚ × ℚ × ℚ
deriving DecidableEq

/-- The two failure modes of field-file parsing named by the specification. -/
inductive FieldFileError where
  | MalformedFieldFileError (msg : String)
  | OversizedFieldFileError
deriving DecidableEq

/-- Modelled from the spec: the practical memory ceiling on the number of
samples a field file may declare; files above it fail with the oversized
error (the C++ side surfaces this as `std::bad_alloc`). -/
def memory_ceiling : ℕ := 2 ^ 32

/-- Modelled from the spec: `FieldParser` parsing of one init-format file
(the parser class itself is not among the shown sources). It reads the header
dimensions and extents, allocates the sample buffer — failing with
`OversizedFieldFileError` past the memory ceiling — and requires the buffer
length to equal the product of the declared dimensions, failing with
`MalformedFieldFileError` on short or corrupt input. -/
def parse_init_file (file : InitFile) : Except FieldFileError FieldData :=
  let n := file.nx * file.ny * file.nz
  if memory_ceiling < n then
    .error .OversizedFieldFileError
  else if file.samples.length ≠ n then
    .error (.MalformedFieldFileError "data length does not match declared dimensions")
  else
    .ok ⟨file.samples, (file.nx, file.ny, file.nz), (file.size_x, file.size_y, file.thickness)⟩

/-- State of the static shared `FieldParser`: the cache of already-parsed
tables keyed by file name, plus a count of actual parses performed. -/
structure FieldParserState where
  cache : List (String × FieldData)
  parse_count : ℕ
deriving DecidableEq

/-- Modelled from the spec: `FieldParser::get_by_file_name`, the deduplicating
lookup shared by all module instances through the static `field_parser_`
member. `disk` gives the content behind each file path; a path already in the
cache is returned as-is, otherwise the file is parsed once and cached. -/
def get_by_file_name (disk : String → InitFile) (path : String)
    (s : FieldParserState) : Except FieldFileError (FieldData × FieldParserState) :=
  match s.cache.lookup path with
  | some fd => .ok (fd, s)
  | none =>
    match parse_init_file (disk path) with
    | .ok fd => .ok (fd, ⟨(path, fd) :: s.cache, s.parse_count + 1⟩)
    | .error e => .error e

/-- `InvalidValueError(config, key, message)`: the configuration error thrown
during module initialization, carrying the offending key. -/
inductive ConfigError where
  | InvalidValueError (key : String) (msg : String)
deriving DecidableEq

/-- The weighting-potential representation installed on the detector: either a
grid (`setWeightingPotentialGrid` with data, dimensions, scale, offset and
thickness domain) or the analytic pad function (`setWeightingPotentialFunction`
whose closure captures the implant size and the thickness domain). -/
inductive InstalledField where
  | grid (data : List ℚ) (dims : ℕ × ℕ × ℕ) (scale : ℚ × ℚ) (offset : ℚ × ℚ)
      (thickness_domain : ℚ × ℚ)
  | padFunction (implant : ℚ × ℚ) (thickness_domain : ℚ × ℚ)
deriving DecidableEq

/-- The thickness domain a field was installed with, for either
representation. -/
def installed_domain : InstalledField → ℚ × ℚ
  | .grid _ _ _ _ td => td
  | .padFunction _ td => td

/-- The configuration view the module reads: the `model` key and the content
behind the `file_name` path (only consulted when `model = "init"`). -/
structure Configuration where
  model : String
  file : InitFile
deriving DecidableEq

/-- `WeightingPotentialReaderModule::read_init_field`: parse the configured
file, run the detector-match check (which only collects warnings), and return
the field data; parser exceptions are rethrown as `InvalidValueError` on key
`file_name`, with `std::bad_alloc` mapped to the distinct message
`file too large`. -/
def read_init_field (file : InitFile) (thickness_domain : ℚ × ℚ)
    (model : DetectorModel) : Except ConfigError (FieldData × List Warning) :=
  match parse_init_file file with
  | .ok fd => .ok (fd, check_detector_match fd.extents thickness_domain model)
  | .error (.MalformedFieldFileError msg) => .error (.InvalidValueError "file_name" msg)
  | .error .OversizedFieldFileError => .error (.InvalidValueError "file_name" "file too large")

/-- `WeightingPotentialReaderModule::init`: compute the thickness domain from
the sensor geometry, then dispatch on the `model` key — `"init"` loads the
grid field and installs it with the scale derived from the pixel pitch,
`"pad"` installs the analytic pad function, and anything else throws
`InvalidValueError` on key `model`. The result pairs the installed field with
the warnings logged on the way. -/
def init (config : Configuration) (det : DetectorModel) :
    Except ConfigError (InstalledField × List Warning) :=
  let field_model := config.model
  let sensor_max_z := det.sensorCenter_z + det.sensorSize_z / 2
  let thickness_domain := (sensor_max_z - det.sensorSize_z, sensor_max_z)
  if field_model = "init" then
    match read_init_field config.file thickness_domain det with
    | .ok (fd, warnings) =>
      let field_scale := (fd.extents.1 / det.pixelSize_x, fd.extents.2.1 / det.pixelSize_y)
      .ok (.grid fd.samples fd.dims field_scale (0, 0) thickness_domain, warnings)
    | .error e => .error e
  else if field_model = "pad" then
    .ok (.padFunction (det.implantSize_x, det.implantSize_y) thickness_domain, [])
  else
    .error (.InvalidValueError "model" "model should be init or pad")

lemma arctanTerm_neg_left (a b c : ℝ) : arctanTerm (-a) b c = -arctanTerm a b c := by
  unfold arctanTerm
  rw [neg_mul_neg, neg_mul, neg_div, neg_div, Real.arctan_neg]

lemma arctanTerm_neg_mid (a b c : ℝ) : arctanTerm a (-b) c = -arctanTerm a b c := by
  unfold arctanTerm
  rw [neg_mul_neg, mul_neg, neg_div, neg_div, Real.arctan_neg]

/-- The loop value after `N` iterations is the finite sum over `n = 1..N`. -/
lemma seriesLoop_eq_sum (implant : XYVector) (x y d local_z : ℝ) (N : ℕ) :
    seriesLoop implant x y d local_z N =
      ∑ n ∈ Finset.Icc 1 N,
        (f implant x y (2 * (n : ℝ) * d - local_z) -
          f implant x y (2 * (n : ℝ) * d + local_z)) := by
  induction N with
  | zero => simp [seriesLoop]
  | succ n ih =>
    rw [seriesLoop, ih, Finset.sum_Icc_succ_top (by omega : 1 ≤ n + 1)]
    push_cast
    ring

/-- Each arctan fraction of the code equals the corresponding term of the
specification formula `atan(Δx·Δy / (u·sqrt(Δx² + Δy² + u²)))`. -/
lemma arctanTerm_spec_form (a b u : ℝ) :
    arctanTerm a b u = Real.arctan (a * b / (u * Real.sqrt (a ^ 2 + b ^ 2 + u ^ 2))) := by
  unfold arctanTerm
  rw [div_div, show a * a + b * b + u * u = a ^ 2 + b ^ 2 + u ^ 2 by ring]

/-- Claim C1: for every query position, the pad weighting-potential function
computes `local_z = thickness_domain.max − pos.z`, accumulates the series over
`n = 1..100` of `f(x, y, 2nd − local_z) − f(x, y, 2nd + local_z)` with `d` the
thickness-domain span, and returns exactly
`(1/2π) · (f(x, y, local_z) − series_sum)`, truncation fixed at 100 terms. -/
theorem pad_potential_closed_form (implant : XYVector) (td : ℝ × ℝ) (pos : XYZPoint) :
    get_pad_potential_function implant td pos =
      1 / (2 * Real.pi) *
        (f implant pos.x pos.y (td.2 - pos.z) -
          ∑ n ∈ Finset.Icc (1 : ℕ) 100,
            (f implant pos.x pos.y (2 * (n : ℝ) * (td.2 - td.1) - (td.2 - pos.z)) -
              f implant pos.x pos.y (2 * (n : ℝ) * (td.2 - td.1) + (td.2 - pos.z)))) := by
  simp only [get_pad_potential_function, seriesLoop_eq_sum, neg_add_eq_sub]

/-- Claim C2: the elementary function `f` of the pad potential equals the sum
of four signed arctangent corner terms of the form
`atan(Δx·Δy / (u·sqrt(Δx² + Δy² + u²)))`, with corner offsets at plus/minus
half the implant size and signs `(+, +, −, −)`. -/
theorem f_equals_corner_sum (implant : XYVector) (x y u : ℝ) :
    f implant x y u = fSpecCorners implant x y u := by
  simp only [f, fSpecCorners, List.map_cons, List.map_nil, List.sum_cons, List.sum_nil,
    arctanTerm_spec_form]
  ring

/-- Claim C7: the elementary function `f` is even in `x` and even in `y`,
thanks to the symmetric corner construction around the implant center. -/
theorem f_even_in_x_and_y (implant : XYVector) (x y u : ℝ) :
    f implant x y u = f implant (-x) y u ∧ f implant x y u = f implant x (-y) u := by
  constructor
  · simp only [f]
    rw [show -x - implant.x / 2 = -(x + implant.x / 2) by ring,
      show -x + implant.x / 2 = -(x - implant.x / 2) by ring,
      arctanTerm_neg_left, arctanTerm_neg_left, arctanTerm_neg_left, arctanTerm_neg_left]
    ring
  · simp only [f]
    rw [show -y - implant.y / 2 = -(y + implant.y / 2) by ring,
      show -y + implant.y / 2 = -(y - implant.y / 2) by ring,
      arctanTerm_neg_mid, arctanTerm_neg_mid, arctanTerm_neg_mid, arctanTerm_neg_mid]
    ring

/-- Claim C8: the returned pad-potential function is pure and deterministic.
The closure captures only the implant size and the thickness domain, by value;
invoking it any number of times on any list of positions returns exactly the
pointwise map of the mathematical function over the positions and leaves the
closure state unchanged, so equal inputs always give equal outputs. -/
theorem pad_function_pure (implant : XYVector) (td : ℝ × ℝ) (ps : List XYZPoint) :
    invokePad (capturePad implant td) ps =
      (ps.map (get_pad_potential_function implant td), capturePad implant td) := by
  induction ps with
  | nil => simp [invokePad]
  | cons p ps ih => simp only [invokePad, capturePad, ih, List.map_cons] at ih ⊢

/-- An exact natural multiple of the pitch leaves a zero fmod remainder. -/
lemma qfmod_nat_mul (k : ℕ) (p : ℚ) : qfmod ((k : ℚ) * p) p = 0 := by
  rcases eq_or_ne p 0 with h | h
  · simp [qfmod, qtrunc, h]
  · rw [qfmod, mul_div_assoc, div_self h, mul_one]
    simp [qtrunc, Rat.num_natCast, Rat.den_natCast]
    ring

/-- Claim C3: loading the same file path twice through the shared field parser
returns the identical field table and performs no second parse: the state
reached by the first load is a fixed point of a repeated load of that path,
and a single load grows the parse count by at most one. The parser is one
static member shared by all module instances, so the repeated load may come
from the same or from a different instance. -/
theorem field_parser_deduplicates (disk : String → InitFile) (path : String)
    (s s₁ : FieldParserState) (fd₁ : FieldData)
    (h : get_by_file_name disk path s = .ok (fd₁, s₁)) :
    get_by_file_name disk path s₁ = .ok (fd₁, s₁) ∧
      s₁.parse_count ≤ s.parse_count + 1 := by
  unfold get_by_file_name at h ⊢
  cases hc : s.cache.lookup path with
  | some fd =>
    rw [hc] at h
    simp only [Except.ok.injEq, Prod.mk.injEq] at h
    obtain ⟨rfl, rfl⟩ := h
    rw [hc]
    exact ⟨rfl, Nat.le_succ _⟩
  | none =>
    rw [hc] at h
    cases hp : parse_init_file (disk path) with
    | ok fd =>
      rw [hp] at h
      simp only [Except.ok.injEq, Prod.mk.injEq] at h
      obtain ⟨rfl, rfl⟩ := h
      simp [List.lookup]
    | error e =>
      rw [hp] at h
      simp at h

/-- Witness for C3: a first load of path `p` from an empty parser state
succeeds, and the theorem then yields the dedup property for the second
load. -/
theorem field_parser_deduplicates_witness :
    get_by_file_name (fun _ => ⟨1, 1, 1, 3, 3, 1, [5]⟩) "p" ⟨[], 0⟩ =
        .ok (⟨[5], (1, 1, 1), (3, 3, 1)⟩, ⟨[("p", ⟨[5], (1, 1, 1), (3, 3, 1)⟩)], 1⟩) ∧
      (get_by_file_name (fun _ => ⟨1, 1, 1, 3, 3, 1, [5]⟩) "p"
            ⟨[("p", ⟨[5], (1, 1, 1), (3, 3, 1)⟩)], 1⟩ =
          .ok (⟨[5], (1, 1, 1), (3, 3, 1)⟩, ⟨[("p", ⟨[5], (1, 1, 1), (3, 3, 1)⟩)], 1⟩) ∧
        (⟨[("p", ⟨[5], (1, 1, 1), (3, 3, 1)⟩)], 1⟩ : FieldParserState).parse_count ≤
          (⟨[], 0⟩ : FieldParserState).parse_count + 1) :=
  ⟨rfl, field_parser_deduplicates _ "p" ⟨[], 0⟩ _ _ rfl⟩

/-- Claim C4: a geometry mismatch (pitch not dividing the extent, or thickness
differing from the depleted-region span, beyond the epsilon of double) only
produces warnings: `init` with the `"init"` model still succeeds, installs the
grid field, and the warning list is nonempty — the field is never rejected. -/
theorem mismatch_warns_but_loads (config : Configuration) (det : DetectorModel)
    (fd : FieldData)
    (hm : config.model = "init")
    (hp : parse_init_file config.file = .ok fd)
    (hmm : epsilon_double < qfmod fd.extents.1 det.pixelSize_x ∨
        epsilon_double < qfmod fd.extents.2.1 det.pixelSize_y ∨
        epsilon_double < |fd.extents.2.2 - det.sensorSize_z|) :
    ∃ warnings : List Warning,
      init config det =
          .ok (.grid fd.samples fd.dims
            (fd.extents.1 / det.pixelSize_x, fd.extents.2.1 / det.pixelSize_y) (0, 0)
            (det.sensorCenter_z + det.sensorSize_z / 2 - det.sensorSize_z,
              det.sensorCenter_z + det.sensorSize_z / 2), warnings) ∧
        warnings ≠ [] := by
  refine ⟨check_detector_match fd.extents
      (det.sensorCenter_z + det.sensorSize_z / 2 - det.sensorSize_z,
        det.sensorCenter_z + det.sensorSize_z / 2) det, ?_, ?_⟩
  · simp [init, read_init_field, hm, hp]
  · simp only [check_detector_match]
    have eff : det.sensorCenter_z + det.sensorSize_z / 2 -
        (det.sensorCenter_z + det.sensorSize_z / 2 - det.sensorSize_z) =
        det.sensorSize_z := by ring
    rcases hmm with h | h | h
    · rw [if_pos (Or.inl h)]
      simp
    · rw [if_pos (Or.inr h)]
      simp
    · rw [eff, if_pos h]
      simp

/-- Witness for C4: a 1×1×1 grid file declaring extents (3, 2) on a detector
with pixel pitch (2, 2) mismatches in x (fmod 3 2 = 1 exceeds epsilon), yet
`init` succeeds with a nonempty warning list. -/
theorem mismatch_warns_but_loads_witness :
    parse_init_file ⟨1, 1, 1, 3, 2, 2, [0]⟩ = .ok ⟨[0], (1, 1, 1), (3, 2, 2)⟩ ∧
      epsilon_double < qfmod 3 2 ∧
      ∃ warnings : List Warning,
        init ⟨"init", ⟨1, 1, 1, 3, 2, 2, [0]⟩⟩ ⟨0, 2, 2, 2, 1, 1⟩ =
            .ok (.grid [0] (1, 1, 1) (3 / 2, 2 / 2) (0, 0) (0 + 2 / 2 - 2, 0 + 2 / 2),
              warnings) ∧
          warnings ≠ [] :=
  ⟨rfl, by norm_num [epsilon_double, qfmod, qtrunc],
    mismatch_warns_but_loads ⟨"init", ⟨1, 1, 1, 3, 2, 2, [0]⟩⟩ ⟨0, 2, 2, 2, 1, 1⟩
      ⟨[0], (1, 1, 1), (3, 2, 2)⟩ rfl rfl
      (Or.inl (by norm_num [epsilon_double, qfmod, qtrunc]))⟩

/-- Claim C5: a file whose declared sample count exceeds the memory ceiling
fails with the oversized-file error, a short file fails with the malformed
error, and the two errors are distinct — both at the parser level and after
`read_init_field` rethrows them as configuration errors (`file too large`
versus the parse message). -/
theorem oversized_error_distinct (big small : InitFile) (td : ℚ × ℚ)
    (det : DetectorModel)
    (hbig : memory_ceiling < big.nx * big.ny * big.nz)
    (hsz : small.nx * small.ny * small.nz ≤ memory_ceiling)
    (hshort : small.samples.length ≠ small.nx * small.ny * small.nz) :
    parse_init_file big = .error .OversizedFieldFileError ∧
      (∃ msg, parse_init_file small = .error (.MalformedFieldFileError msg) ∧
        FieldFileError.OversizedFieldFileError ≠ .MalformedFieldFileError msg) ∧
      read_init_field big td det = .error (.InvalidValueError "file_name" "file too large") ∧
      (∃ msg, read_init_field small td det = .error (.InvalidValueError "file_name" msg) ∧
        msg ≠ "file too large") := by
  have h1 : parse_init_file big = .error .OversizedFieldFileError := by
    unfold parse_init_file
    rw [if_pos hbig]
  have h2 : parse_init_file small =
      .error (.MalformedFieldFileError "data length does not match declared dimensions") := by
    unfold parse_init_file
    rw [if_neg (not_lt.mpr hsz), if_pos hshort]
  refine ⟨h1, ⟨_, h2, by intro h; exact FieldFileError.noConfusion h⟩, ?_, ?_⟩
  · unfold read_init_field
    rw [h1]
  · refine ⟨"data length does not match declared dimensions", ?_, by decide⟩
    unfold read_init_field
    rw [h2]

/-- Witness for C5: a file declaring 2³² + 1 samples is oversized, a 1×1×1
file with an empty buffer is short, and the two failures are distinct. -/
theorem oversized_error_distinct_witness :
    memory_ceiling < 4294967297 * 1 * 1 ∧
      (1 : ℕ) * 1 * 1 ≤ memory_ceiling ∧
      ([] : List ℚ).length ≠ 1 * 1 * 1 ∧
      parse_init_file ⟨4294967297, 1, 1, 1, 1, 1, []⟩ = .error .OversizedFieldFileError :=
  ⟨by decide, by decide, by decide,
    (oversized_error_distinct ⟨4294967297, 1, 1, 1, 1, 1, []⟩ ⟨1, 1, 1, 1, 1, 1, []⟩
      (0, 1) ⟨0, 1, 1, 1, 1, 1⟩ (by decide) (by decide) (by decide)).1⟩

/-- Claim C6: when the x and y extents are exact natural multiples of the
pixel pitch in their axis, `check_detector_match` emits no pitch-mismatch
warning — the fmod remainder is zero, which never exceeds the epsilon of
double (the thickness warning is unaffected by this statement). -/
theorem exact_multiple_no_pitch_warning (det : DetectorModel) (td : ℚ × ℚ)
    (t : ℚ) (m n : ℕ) :
    Warning.pitchMismatch ∉
      check_detector_match ((m : ℚ) * det.pixelSize_x, (n : ℚ) * det.pixelSize_y, t)
        td det := by
  simp only [check_detector_match]
  rw [qfmod_nat_mul, qfmod_nat_mul,
    if_neg (by norm_num [epsilon_double] : ¬(epsilon_double < 0 ∨ epsilon_double < 0))]
  split <;> simp

/-- Claim C9: any `model` value other than `"init"` and `"pad"` makes `init`
fail with `InvalidValueError` on the key `model`; the error return means no
field is installed and the module never reaches event processing. -/
theorem init_invalid_model_fails (config : Configuration) (det : DetectorModel)
    (h1 : config.model ≠ "init") (h2 : config.model ≠ "pad") :
    init config det = .error (.InvalidValueError "model" "model should be init or pad") := by
  unfold init
  rw [if_neg h1, if_neg h2]

/-- Witness for C9: the model string `"linear"` is neither `"init"` nor
`"pad"` and initialization rejects it on the key `model`. -/
theorem init_invalid_model_fails_witness :
    ("linear" ≠ "init" ∧ "linear" ≠ "pad") ∧
      init ⟨"linear", ⟨1, 1, 1, 1, 1, 1, [0]⟩⟩ ⟨0, 2, 1, 1, 1, 1⟩ =
        .error (.InvalidValueError "model" "model should be init or pad") :=
  ⟨⟨by decide, by decide⟩,
    init_invalid_model_fails ⟨"linear", ⟨1, 1, 1, 1, 1, 1, [0]⟩⟩ ⟨0, 2, 1, 1, 1, 1⟩
      (by decide) (by decide)⟩

/-- Claim C10: whenever `init` succeeds — under either field model — the
thickness domain installed with the weighting potential is exactly
`(sensor_center.z − sensor_size.z/2, sensor_center.z + sensor_size.z/2)`, the
full sensor z-extent, so its span always equals the sensor size in z. -/
theorem thickness_domain_spans_sensor (config : Configuration) (det : DetectorModel)
    (field : InstalledField) (warnings : List Warning)
    (h : init config det = .ok (field, warnings)) :
    installed_domain field =
        (det.sensorCenter_z - det.sensorSize_z / 2,
          det.sensorCenter_z + det.sensorSize_z / 2) ∧
      (installed_domain field).2 - (installed_domain field).1 = det.sensorSize_z := by
  simp only [init] at h
  split at h
  · cases hr : read_init_field config.file
        (det.sensorCenter_z + det.sensorSize_z / 2 - det.sensorSize_z,
          det.sensorCenter_z + det.sensorSize_z / 2) det with
    | ok p =>
      rw [hr] at h
      simp only [Except.ok.injEq, Prod.mk.injEq] at h
      obtain ⟨rfl, -⟩ := h
      refine ⟨?_, ?_⟩
      · simp only [installed_domain, Prod.mk.injEq]
        exact ⟨by ring, trivial⟩
      · simp only [installed_domain]
        ring
    | error e =>
      rw [hr] at h
      simp at h
  · split at h
    · simp only [Except.ok.injEq, Prod.mk.injEq] at h
      obtain ⟨rfl, -⟩ := h
      refine ⟨?_, ?_⟩
      · simp only [installed_domain, Prod.mk.injEq]
        exact ⟨by ring, trivial⟩
      · simp only [installed_domain]
        ring
    · simp at h

/-- Witness for C10: a concrete `"pad"` run on a sensor centered at `z = 0`
with thickness 2 installs the domain `(−1, 1)`, which spans the sensor. -/
theorem thickness_domain_spans_sensor_witness :
    init ⟨"pad", ⟨1, 1, 1, 1, 1, 1, [0]⟩⟩ ⟨0, 2, 1, 1, 1, 1⟩ =
        .ok (.padFunction (1, 1) (0 + 2 / 2 - 2, 0 + 2 / 2), []) ∧
      (installed_domain (.padFunction (1, 1) (0 + 2 / 2 - 2, 0 + 2 / 2)) =
          (0 - 2 / 2, 0 + 2 / 2) ∧
        (installed_domain (.padFunction (1, 1) (0 + 2 / 2 - 2, 0 + 2 / 2))).2 -
            (installed_domain (.padFunction (1, 1) (0 + 2 / 2 - 2, 0 + 2 / 2))).1 = 2) := by
  have hinit : init ⟨"pad", ⟨1, 1, 1, 1, 1, 1, [0]⟩⟩ ⟨0, 2, 1, 1, 1, 1⟩ =
      .ok (.padFunction (1, 1) (0 + 2 / 2 - 2, 0 + 2 / 2), []) := by
    unfold init
    rw [if_neg (by decide : ¬(("pad" : String) = "init"))]
    rfl
  exact ⟨hinit,
    thickness_domain_spans_sensor ⟨"pad", ⟨1, 1, 1, 1, 1, 1, [0]⟩⟩ ⟨0, 2, 1, 1, 1, 1⟩
      _ _ hinit⟩

end WeightingPotentialReader
